import Mathlib

/-!
Shallow embedding of the violetear coordinator core (src/src/main.rs):
the content-addressed task store and its profile-scoped relational model.

Bytes are modelled as `Nat` values (each below 256 in practice), byte
strings as `List Nat`, database integer identifiers (`BIGSERIAL`, i64)
as `Int`.  The Postgres-backed store is modelled as an in-memory `Store`
state; each RPC handler of `impl Rpc for RpcImpl` becomes a function from
a pool-availability flag and a `Store` to an outcome paired with the
successor store.  Every `.unwrap()` in the source is modelled by the
`panicked` outcome: the handler dies, it does not produce a JSON-RPC
error object.
-/

namespace Violetear

/-! ## Content Addresser: SHA-256 and the multihash framing.

The source computes `encode(Hash::SHA2256, &data)` with the `multihash`
crate, which prefixes the SHA-256 digest of `data` with the multihash
code byte 0x12 (SHA2-256) and the digest length byte 0x20 (32).  The
SHA-256 compression below follows FIPS 180-4, as the `sha2` crate the
`multihash` crate delegates to implements it. -/

/-- Truncate to a 32-bit word, as all SHA-256 word arithmetic is mod 2^32. -/
def w32 (n : Nat) : Nat := n % 4294967296

/-- Rotate a 32-bit word right by `n` bits. -/
def rotr (n x : Nat) : Nat := w32 ((x >>> n) ||| (x <<< (32 - n)))

/-- The SHA-256 choice function. -/
def ch (x y z : Nat) : Nat := (x &&& y) ^^^ ((x ^^^ 4294967295) &&& z)

/-- The SHA-256 majority function. -/
def maj (x y z : Nat) : Nat := (x &&& y) ^^^ (x &&& z) ^^^ (y &&& z)

/-- The SHA-256 big sigma-0 function. -/
def bsig0 (x : Nat) : Nat := rotr 2 x ^^^ rotr 13 x ^^^ rotr 22 x

/-- The SHA-256 big sigma-1 function. -/
def bsig1 (x : Nat) : Nat := rotr 6 x ^^^ rotr 11 x ^^^ rotr 25 x

/-- The SHA-256 small sigma-0 function. -/
def ssig0 (x : Nat) : Nat := rotr 7 x ^^^ rotr 18 x ^^^ (x >>> 3)

/-- The SHA-256 small sigma-1 function. -/
def ssig1 (x : Nat) : Nat := rotr 17 x ^^^ rotr 19 x ^^^ (x >>> 10)

/-- The 64 SHA-256 round constants of FIPS 180-4, written in decimal. -/
def kconst : List Nat :=
  [1116352408, 1899447441, 3049323471, 3921009573, 961987163, 1508970993, 2453635748, 2870763221,
   3624381080, 310598401, 607225278, 1426881987, 1925078388, 2162078206, 2614888103, 3248222580,
   3835390401, 4022224774, 264347078, 604807628, 770255983, 1249150122, 1555081692, 1996064986,
   2554220882, 2821834349, 2952996808, 3210313671, 3336571891, 3584528711, 113926993, 338241895,
   666307205, 773529912, 1294757372, 1396182291, 1695183700, 1986661051, 2177026350, 2456956037,
   2730485921, 2820302411, 3259730800, 3345764771, 3516065817, 3600352804, 4094571909, 275423344,
   430227734, 506948616, 659060556, 883997877, 958139571, 1322822218, 1537002063, 1747873779,
   1955562222, 2024104815, 2227730452, 2361852424, 2428436474, 2756734187, 3204031479, 3329325298]

/-- The SHA-256 working state: eight 32-bit words. -/
structure HState where
  a : Nat
  b : Nat
  c : Nat
  d : Nat
  e : Nat
  f : Nat
  g : Nat
  h : Nat
deriving DecidableEq

/-- The SHA-256 initial hash value of FIPS 180-4, written in decimal. -/
def h0 : HState :=
  ⟨1779033703, 3144134277, 1013904242, 2773480762,
   1359893119, 2600822924, 528734635, 1541459225⟩

/-- Pad a message per FIPS 180-4: append 0x80, zeros, and the 64-bit
big-endian bit length, to a multiple of 64 bytes. -/
def padMessage (msg : List Nat) : List Nat :=
  let L := msg.length
  msg ++ [128] ++ List.replicate ((119 - L % 64) % 64) 0 ++
    (List.range 8).map (fun i => ((L * 8) >>> (8 * (7 - i))) % 256)

/-- Split a byte list into 64-byte blocks, structurally recursing on a
fuel bound that the caller sets to the list length. -/
def toBlocksAux : Nat → List Nat → List (List Nat)
  | 0, _ => []
  | _, [] => []
  | fuel + 1, l => l.take 64 :: toBlocksAux fuel (l.drop 64)

/-- Split a byte list into 64-byte blocks. -/
def toBlocks (l : List Nat) : List (List Nat) :=
  toBlocksAux l.length l

/-- Read a block as 32-bit big-endian words. -/
def toWords : List Nat → List Nat
  | b0 :: b1 :: b2 :: b3 :: rest =>
      (b0 * 16777216 + b1 * 65536 + b2 * 256 + b3) :: toWords rest
  | _ => []

/-- Extend the 16 message words to the 64-entry message schedule. -/
def extendSchedule (w : List Nat) : List Nat :=
  (List.range 48).foldl
    (fun acc _ =>
      let n := acc.length
      acc ++ [w32 (ssig1 (acc.getD (n - 2) 0) + acc.getD (n - 7) 0 +
                   ssig0 (acc.getD (n - 15) 0) + acc.getD (n - 16) 0)])
    w

/-- One SHA-256 round on the working state, given a schedule word and a
round constant. -/
def compressStep (st : HState) (wk : Nat × Nat) : HState :=
  let t1 := w32 (st.h + bsig1 st.e + ch st.e st.f st.g + wk.2 + wk.1)
  let t2 := w32 (bsig0 st.a + maj st.a st.b st.c)
  ⟨w32 (t1 + t2), st.a, st.b, st.c, w32 (st.d + t1), st.e, st.f, st.g⟩

/-- Compress one 64-byte block into the running hash state. -/
def compressBlock (H : HState) (block : List Nat) : HState :=
  let w := extendSchedule (toWords block)
  let fin := (w.zip kconst).foldl compressStep H
  ⟨w32 (H.a + fin.a), w32 (H.b + fin.b), w32 (H.c + fin.c), w32 (H.d + fin.d),
   w32 (H.e + fin.e), w32 (H.f + fin.f), w32 (H.g + fin.g), w32 (H.h + fin.h)⟩

/-- Emit a 32-bit word as four big-endian bytes. -/
def wordBytes (x : Nat) : List Nat :=
  [x / 16777216 % 256, x / 65536 % 256, x / 256 % 256, x % 256]

/-- SHA-256 of a byte string, as its 32 digest bytes. -/
def sha256 (msg : List Nat) : List Nat :=
  let H := (toBlocks (padMessage msg)).foldl compressBlock h0
  wordBytes H.a ++ wordBytes H.b ++ wordBytes H.c ++ wordBytes H.d ++
    wordBytes H.e ++ wordBytes H.f ++ wordBytes H.g ++ wordBytes H.h

/-- The multihash encoding the source stores: `encode(Hash::SHA2256, data)`
is the code byte 0x12 (naming SHA2-256), the length byte 0x20 (a 32-byte
digest), then the SHA-256 digest of `data`. -/
def multihashEncode (data : List Nat) : List Nat :=
  18 :: 32 :: sha256 data

/-! ## Data model.

The row types mirror the `Profile` and `Task` structs of the source; the
`Store` is the in-memory model of the two Postgres tables, with the
`BIGSERIAL` sequences starting at 1. -/

/-- Newtype for profile identifiers, mirroring `pub struct ProfileId(i64)`. -/
structure ProfileId where
  val : Int
deriving DecidableEq

/-- Newtype for task identifiers, mirroring `pub struct TaskId(i64)`. -/
structure TaskId where
  val : Int
deriving DecidableEq

/-- A row of the profiles table, mirroring `pub struct Profile`. -/
structure Profile where
  id : Int
  base : String
  name : String
  json : String
deriving DecidableEq

/-- A row of the tasks table, mirroring `pub struct Task`. -/
structure Task where
  id : Int
  profile_id : Int
  file_name : String
  data : List Nat
  multihash : List Nat
deriving DecidableEq

/-- The state of the backing store: the two tables in insertion order and
the next value of each `BIGSERIAL` id sequence. -/
structure Store where
  profiles : List Profile
  tasks : List Task
  nextProfileId : Int
  nextTaskId : Int
deriving DecidableEq

/-- The store right after the two `CREATE TABLE IF NOT EXISTS` statements
of `main` run against a fresh database. -/
def emptyStore : Store := ⟨[], [], 1, 1⟩

/-! ## Persisted schema.

A literal transcription of the column clauses of the two
`CREATE TABLE IF NOT EXISTS` statements in `main`. -/

/-- One column clause of a `CREATE TABLE` statement: name, type, and which
constraint keywords the clause carries.  `referencesTable` records the
target of a `REFERENCES` clause when one is present. -/
structure ColumnDef where
  cname : String
  ctype : String
  isPrimaryKey : Bool
  isNotNull : Bool
  isUnique : Bool
  referencesTable : Option String
deriving DecidableEq

/-- The column clauses of `CREATE TABLE IF NOT EXISTS profiles (...)`. -/
def profilesTableColumns : List ColumnDef :=
  [⟨"id", "BIGSERIAL", true, true, false, none⟩,
   ⟨"base", "VARCHAR(255)", false, true, false, none⟩,
   ⟨"name", "VARCHAR(255)", false, true, true, none⟩,
   ⟨"json", "JSONB", false, true, false, none⟩]

/-- The column clauses of `CREATE TABLE IF NOT EXISTS tasks (...)`. -/
def tasksTableColumns : List ColumnDef :=
  [⟨"id", "BIGSERIAL", true, true, false, none⟩,
   ⟨"profile_id", "BIGSERIAL", false, true, false, none⟩,
   ⟨"file_name", "TEXT", false, true, false, none⟩,
   ⟨"data", "BYTEA", false, false, false, none⟩,
   ⟨"multihash", "BYTEA", false, false, false, none⟩]

/-! ## RPC operations.

Each handler takes a `poolOk` flag modelling availability of the
connection pool and the backing store: when it is false, the first
`self.db_pool.get().unwrap()` (or the query it feeds) fails and the
handler panics.  The source never constructs a `jsonrpc_core::Error`, so
the only outcomes are a JSON-RPC success or a panic; the `fault`
constructor stands for a typed RPC fault carrying an error code, which
the operations below never produce. -/

/-- Outcome of one RPC handler call: a successful typed response, a typed
RPC fault carrying a stable integer error code, or a panic from a failed
`.unwrap()`. -/
inductive RpcOutcome (α : Type) where
  | ok : α → RpcOutcome α
  | fault : Int → RpcOutcome α
  | panicked : RpcOutcome α
deriving DecidableEq

/-- Whether an outcome is a typed RPC fault. -/
def RpcOutcome.isFault : RpcOutcome α → Bool
  | .fault _ => true
  | _ => false

/-- Whether the profiles table already holds a row with this name, which
is what makes the `INSERT` of `create_profile` violate the `UNIQUE`
constraint on `name`. -/
def nameExists (s : Store) (name : String) : Bool :=
  s.profiles.any (fun p => p.name == name)

/-- The row `SELECT * FROM profiles WHERE id = $1` returns, if any. -/
def lookupProfile (s : Store) (id : Int) : Option Profile :=
  s.profiles.find? (fun p => p.id == id)

/-- The row `SELECT * FROM tasks WHERE id = $1` returns, if any. -/
def lookupTask (s : Store) (id : Int) : Option Task :=
  s.tasks.find? (fun t => t.id == id)

/-- Handler `create_profile`: `INSERT INTO profiles (base, name, json)
VALUES ($1, $2, $3) RETURNING id`, every failure unwrapped.  A duplicate
name makes the insert fail on the `UNIQUE` constraint and the `.unwrap()`
panic; otherwise the row is inserted with the next sequence id. -/
def create_profile (poolOk : Bool) (s : Store) (base_name name json : String) :
    RpcOutcome ProfileId × Store :=
  if poolOk then
    if nameExists s name then (.panicked, s)
    else
      (.ok ⟨s.nextProfileId⟩,
       { s with profiles := s.profiles ++ [⟨s.nextProfileId, base_name, name, json⟩],
                nextProfileId := s.nextProfileId + 1 })
  else (.panicked, s)

/-- Handler `list_profiles`: `SELECT (id) FROM profiles` with an optional
`WHERE base = $1`, mapped through `ProfileId`. -/
def list_profiles (poolOk : Bool) (s : Store) (by_base : Option String) :
    RpcOutcome (List ProfileId) × Store :=
  if poolOk then
    match by_base with
    | some b => (.ok ((s.profiles.filter (fun p => p.base == b)).map (fun p => ⟨p.id⟩)), s)
    | none => (.ok (s.profiles.map (fun p => ⟨p.id⟩)), s)
  else (.panicked, s)

/-- Handler `fetch_profile`: `SELECT * FROM profiles WHERE id = $1`; the
`rows.iter().next().unwrap()` panics when no row matches, otherwise the
full row is returned. -/
def fetch_profile (poolOk : Bool) (s : Store) (id : ProfileId) :
    RpcOutcome Profile × Store :=
  if poolOk then
    match lookupProfile s id.val with
    | some row => (.ok row, s)
    | none => (.panicked, s)
  else (.panicked, s)

/-- Handler `create_task`: first `self.fetch_profile(profile).unwrap()`
(the source comment explains this runs before taking a connection so one
RPC call never holds two pooled connections), then `INSERT INTO tasks
(profile_id, file_name, data, multihash) VALUES ($1, $2, $3, $4)
RETURNING id` with `profile.id.0` of the fetched row, the caller bytes,
and `encode(Hash::SHA2256, &data)`. -/
def create_task (poolOk : Bool) (s : Store) (profile : ProfileId)
    (file_name : String) (data : List Nat) : RpcOutcome TaskId × Store :=
  match (fetch_profile poolOk s profile).1 with
  | .ok prof =>
    if poolOk then
      (.ok ⟨s.nextTaskId⟩,
       { s with tasks := s.tasks ++
                  [⟨s.nextTaskId, prof.id, file_name, data, multihashEncode data⟩],
                nextTaskId := s.nextTaskId + 1 })
    else (.panicked, s)
  | _ => (.panicked, s)

/-- Handler `list_tasks`: `SELECT (id) FROM tasks` with an optional
`WHERE profile_id = $1`, mapped through `TaskId`. -/
def list_tasks (poolOk : Bool) (s : Store) (by_profile : Option ProfileId) :
    RpcOutcome (List TaskId) × Store :=
  if poolOk then
    match by_profile with
    | some p => (.ok ((s.tasks.filter (fun t => t.profile_id == p.val)).map (fun t => ⟨t.id⟩)), s)
    | none => (.ok (s.tasks.map (fun t => ⟨t.id⟩)), s)
  else (.panicked, s)

/-- Handler `fetch_task`: `SELECT * FROM tasks WHERE id = $1`; the
`rows.iter().next().unwrap()` panics when no row matches, otherwise the
full row including `data` and `multihash` is returned. -/
def fetch_task (poolOk : Bool) (s : Store) (id : TaskId) :
    RpcOutcome Task × Store :=
  if poolOk then
    match lookupTask s id.val with
    | some row => (.ok row, s)
    | none => (.panicked, s)
  else (.panicked, s)

/-! ## Reachable store states.

A store state is reachable when it arises from a fresh database by any
sequence of the six RPC operations, with any arguments and any pool
availability. -/

/-- Store states reachable from a fresh database through the RPC surface. -/
inductive Reachable : Store → Prop where
  | init : Reachable emptyStore
  | stepCreateProfile (poolOk : Bool) (b n j : String) (s : Store) :
      Reachable s → Reachable (create_profile poolOk s b n j).2
  | stepListProfiles (poolOk : Bool) (ob : Option String) (s : Store) :
      Reachable s → Reachable (list_profiles poolOk s ob).2
  | stepFetchProfile (poolOk : Bool) (i : ProfileId) (s : Store) :
      Reachable s → Reachable (fetch_profile poolOk s i).2
  | stepCreateTask (poolOk : Bool) (p : ProfileId) (fn : String) (d : List Nat) (s : Store) :
      Reachable s → Reachable (create_task poolOk s p fn d).2
  | stepListTasks (poolOk : Bool) (op : Option ProfileId) (s : Store) :
      Reachable s → Reachable (list_tasks poolOk s op).2
  | stepFetchTask (poolOk : Bool) (i : TaskId) (s : Store) :
      Reachable s → Reachable (fetch_task poolOk s i).2

/-- Referential integrity of a store state: every task row points at an
existing profile row. -/
def refIntact (s : Store) : Bool :=
  s.tasks.all (fun t => s.profiles.any (fun p => p.id == t.profile_id))

/-- Digest integrity of a store state: every task row stores the
multihash of exactly its own data bytes. -/
def digestsIntact (s : Store) : Bool :=
  s.tasks.all (fun t => t.multihash == multihashEncode t.data)

/-! ## Helper lemmas about the operations. -/

/-- Read-only handler: `list_profiles` leaves the store unchanged. -/
theorem list_profiles_snd (poolOk : Bool) (s : Store) (ob : Option String) :
    (list_profiles poolOk s ob).2 = s := by
  cases poolOk <;> cases ob <;> simp [list_profiles]

/-- Read-only handler: `fetch_profile` leaves the store unchanged. -/
theorem fetch_profile_snd (poolOk : Bool) (s : Store) (i : ProfileId) :
    (fetch_profile poolOk s i).2 = s := by
  cases poolOk <;> simp [fetch_profile] <;> cases lookupProfile s i.val <;> simp

/-- Read-only handler: `list_tasks` leaves the store unchanged. -/
theorem list_tasks_snd (poolOk : Bool) (s : Store) (op : Option ProfileId) :
    (list_tasks poolOk s op).2 = s := by
  cases poolOk <;> cases op <;> simp [list_tasks]

/-- Read-only handler: `fetch_task` leaves the store unchanged. -/
theorem fetch_task_snd (poolOk : Bool) (s : Store) (i : TaskId) :
    (fetch_task poolOk s i).2 = s := by
  cases poolOk <;> simp [fetch_task] <;> cases lookupTask s i.val <;> simp

/-- Effect of `create_profile` on the store: either nothing changes (pool
failure or duplicate name, both panics) or exactly the one new row is
appended. -/
theorem create_profile_snd (poolOk : Bool) (s : Store) (b n j : String) :
    (create_profile poolOk s b n j).2 = s ∨
    (create_profile poolOk s b n j).2 =
      { s with profiles := s.profiles ++ [⟨s.nextProfileId, b, n, j⟩],
               nextProfileId := s.nextProfileId + 1 } := by
  cases poolOk
  · exact Or.inl rfl
  · by_cases hn : nameExists s n
    · exact Or.inl (by simp [create_profile, hn])
    · exact Or.inr (by simp [create_profile, hn])

/-- Effect of `create_task` on the store: either nothing changes (a panic
on pool failure or on the missing profile) or the referenced profile row
exists and exactly the one new task row, carrying that profile's id and
the multihash of the data, is appended. -/
theorem create_task_snd (poolOk : Bool) (s : Store) (p : ProfileId)
    (fn : String) (d : List Nat) :
    (create_task poolOk s p fn d).2 = s ∨
    ∃ prof, lookupProfile s p.val = some prof ∧
      (create_task poolOk s p fn d).2 =
        { s with tasks := s.tasks ++
                   [⟨s.nextTaskId, prof.id, fn, d, multihashEncode d⟩],
                 nextTaskId := s.nextTaskId + 1 } := by
  cases poolOk
  · exact Or.inl rfl
  · rcases hp : lookupProfile s p.val with _ | prof
    · exact Or.inl (by simp [create_task, fetch_profile, hp])
    · exact Or.inr ⟨prof, rfl, by simp [create_task, fetch_profile, hp]⟩

/-- A `find?` skips a front segment on which the predicate is false. -/
theorem find?_append_of_none {α : Type} {p : α → Bool} {l₁ l₂ : List α}
    (h : ∀ a ∈ l₁, p a = false) : (l₁ ++ l₂).find? p = l₂.find? p := by
  rw [List.find?_append]
  have hnone : l₁.find? p = none :=
    List.find?_eq_none.mpr (by intro x hx; simp [h x hx])
  simp [hnone]

/-- Reading `refIntact` in terms of row membership. -/
theorem refIntact_iff (s : Store) :
    refIntact s = true ↔ ∀ t ∈ s.tasks, ∃ p ∈ s.profiles, p.id = t.profile_id := by
  simp [refIntact, List.all_eq_true, List.any_eq_true]

/-- Reading `digestsIntact` in terms of row membership. -/
theorem digestsIntact_iff (s : Store) :
    digestsIntact s = true ↔ ∀ t ∈ s.tasks, t.multihash = multihashEncode t.data := by
  simp [digestsIntact, List.all_eq_true]

/-- In every reachable store state the task id sequence is strictly ahead
of every stored task id: inserted task ids are fresh. -/
theorem reachable_task_ids (s : Store) (h : Reachable s) :
    ∀ t ∈ s.tasks, t.id < s.nextTaskId := by
  induction h with
  | init => intro t ht; cases ht
  | stepCreateProfile poolOk b n j s hr ih =>
      rcases create_profile_snd poolOk s b n j with h2 | h2 <;> rw [h2] <;> exact ih
  | stepListProfiles poolOk ob s hr ih => rw [list_profiles_snd]; exact ih
  | stepFetchProfile poolOk i s hr ih => rw [fetch_profile_snd]; exact ih
  | stepCreateTask poolOk p fn d s hr ih =>
      rcases create_task_snd poolOk s p fn d with h2 | ⟨prof, hp, h2⟩ <;> rw [h2]
      · exact ih
      · intro t ht
        rcases List.mem_append.mp ht with ht | ht
        · have h3 := ih t ht
          show t.id < s.nextTaskId + 1
          omega
        · rcases List.mem_singleton.mp ht with rfl
          show s.nextTaskId < s.nextTaskId + 1
          omega
  | stepListTasks poolOk op s hr ih => rw [list_tasks_snd]; exact ih
  | stepFetchTask poolOk i s hr ih => rw [fetch_task_snd]; exact ih

/-- In every reachable store state every task row points at an existing
profile row: the `create_task` path resolves the profile first, and no
operation removes a profile. -/
theorem reachable_refIntact (s : Store) (h : Reachable s) : refIntact s = true := by
  induction h with
  | init => rfl
  | stepCreateProfile poolOk b n j s hr ih =>
      rcases create_profile_snd poolOk s b n j with h2 | h2 <;> rw [h2]
      · exact ih
      · rw [refIntact_iff] at ih ⊢
        intro t ht
        rcases ih t ht with ⟨p, hp, he⟩
        exact ⟨p, List.mem_append.mpr (Or.inl hp), he⟩
  | stepListProfiles poolOk ob s hr ih => rw [list_profiles_snd]; exact ih
  | stepFetchProfile poolOk i s hr ih => rw [fetch_profile_snd]; exact ih
  | stepCreateTask poolOk p fn d s hr ih =>
      rcases create_task_snd poolOk s p fn d with h2 | ⟨prof, hp, h2⟩ <;> rw [h2]
      · exact ih
      · rw [refIntact_iff] at ih ⊢
        intro t ht
        rcases List.mem_append.mp ht with ht | ht
        · exact ih t ht
        · rcases List.mem_singleton.mp ht with rfl
          exact ⟨prof, List.mem_of_find?_eq_some hp, rfl⟩
  | stepListTasks poolOk op s hr ih => rw [list_tasks_snd]; exact ih
  | stepFetchTask poolOk i s hr ih => rw [fetch_task_snd]; exact ih

/-- In every reachable store state every task row stores the multihash of
its own data: the digest is computed by `create_task` from the exact
bytes it inserts, and rows are immutable. -/
theorem reachable_digestsIntact (s : Store) (h : Reachable s) : digestsIntact s = true := by
  induction h with
  | init => rfl
  | stepCreateProfile poolOk b n j s hr ih =>
      rcases create_profile_snd poolOk s b n j with h2 | h2 <;> rw [h2]
      · exact ih
      · rw [digestsIntact_iff] at ih ⊢; exact ih
  | stepListProfiles poolOk ob s hr ih => rw [list_profiles_snd]; exact ih
  | stepFetchProfile poolOk i s hr ih => rw [fetch_profile_snd]; exact ih
  | stepCreateTask poolOk p fn d s hr ih =>
      rcases create_task_snd poolOk s p fn d with h2 | ⟨prof, hp, h2⟩ <;> rw [h2]
      · exact ih
      · rw [digestsIntact_iff] at ih ⊢
        intro t ht
        rcases List.mem_append.mp ht with ht | ht
        · exact ih t ht
        · rcases List.mem_singleton.mp ht with rfl; rfl
  | stepListTasks poolOk op s hr ih => rw [list_tasks_snd]; exact ih
  | stepFetchTask poolOk i s hr ih => rw [fetch_task_snd]; exact ih

/-- No-fault shape of `create_profile`: the handler answers with a
success or panics, never with a typed fault. -/
theorem create_profile_no_fault (poolOk : Bool) (s : Store) (b n j : String) :
    RpcOutcome.isFault (create_profile poolOk s b n j).1 = false := by
  cases poolOk
  · rfl
  · by_cases hn : nameExists s n <;> simp [create_profile, hn, RpcOutcome.isFault]

/-- No-fault shape of `list_profiles`. -/
theorem list_profiles_no_fault (poolOk : Bool) (s : Store) (ob : Option String) :
    RpcOutcome.isFault (list_profiles poolOk s ob).1 = false := by
  cases poolOk <;> cases ob <;> simp [list_profiles, RpcOutcome.isFault]

/-- No-fault shape of `fetch_profile`. -/
theorem fetch_profile_no_fault (poolOk : Bool) (s : Store) (i : ProfileId) :
    RpcOutcome.isFault (fetch_profile poolOk s i).1 = false := by
  cases poolOk
  · rfl
  · rcases hp : lookupProfile s i.val with _ | prof <;>
      simp [fetch_profile, hp, RpcOutcome.isFault]

/-- No-fault shape of `create_task`. -/
theorem create_task_no_fault (poolOk : Bool) (s : Store) (p : ProfileId)
    (fn : String) (d : List Nat) :
    RpcOutcome.isFault (create_task poolOk s p fn d).1 = false := by
  cases poolOk
  · rfl
  · rcases hp : lookupProfile s p.val with _ | prof <;>
      simp [create_task, fetch_profile, hp, RpcOutcome.isFault]

/-- No-fault shape of `list_tasks`. -/
theorem list_tasks_no_fault (poolOk : Bool) (s : Store) (op : Option ProfileId) :
    RpcOutcome.isFault (list_tasks poolOk s op).1 = false := by
  cases poolOk <;> cases op <;> simp [list_tasks, RpcOutcome.isFault]

/-- No-fault shape of `fetch_task`. -/
theorem fetch_task_no_fault (poolOk : Bool) (s : Store) (i : TaskId) :
    RpcOutcome.isFault (fetch_task poolOk s i).1 = false := by
  cases poolOk
  · rfl
  · rcases hp : lookupTask s i.val with _ | row <;>
      simp [fetch_task, hp, RpcOutcome.isFault]

/-! ## The claims. -/

/-- C6: round-trip.  For every reachable store, existing profile, file
name and byte sequence, `create_task` succeeds with the next task id, the
task fetched back under that id carries exactly the submitted bytes as
`data`, and recomputing the digest over the fetched data reproduces the
stored digest byte for byte. -/
theorem claim_C6_round_trip (s : Store) (pid : ProfileId) (fn : String)
    (d : List Nat) (prof : Profile) (hs : Reachable s)
    (hp : lookupProfile s pid.val = some prof) :
    (create_task true s pid fn d).1 = RpcOutcome.ok ⟨s.nextTaskId⟩ ∧
    (fetch_task true (create_task true s pid fn d).2 ⟨s.nextTaskId⟩).1 =
      RpcOutcome.ok ⟨s.nextTaskId, prof.id, fn, d, multihashEncode d⟩ ∧
    (Task.mk s.nextTaskId prof.id fn d (multihashEncode d)).data = d ∧
    multihashEncode (Task.mk s.nextTaskId prof.id fn d (multihashEncode d)).data =
      (Task.mk s.nextTaskId prof.id fn d (multihashEncode d)).multihash := by
  have hfresh := reachable_task_ids s hs
  have h1 : (create_task true s pid fn d).1 = RpcOutcome.ok ⟨s.nextTaskId⟩ := by
    simp [create_task, fetch_profile, hp]
  have h2 : (create_task true s pid fn d).2 =
      { s with tasks := s.tasks ++ [⟨s.nextTaskId, prof.id, fn, d, multihashEncode d⟩],
               nextTaskId := s.nextTaskId + 1 } := by
    simp [create_task, fetch_profile, hp]
  have h3 : lookupTask (create_task true s pid fn d).2 s.nextTaskId =
      some ⟨s.nextTaskId, prof.id, fn, d, multihashEncode d⟩ := by
    rw [h2]
    show (s.tasks ++ [_]).find? _ = _
    rw [find?_append_of_none]
    · simp
    · intro t ht
      have hlt := hfresh t ht
      simp
      omega
  refine ⟨h1, ?_, rfl, rfl⟩
  simp [fetch_task, h3]

/-- C6 witness: the round trip at a concrete one-profile store and the
payload bytes 104, 105. -/
theorem claim_C6_witness :
    (create_task true (create_profile true emptyStore "b" "n" "j").2 ⟨1⟩ "f" [104, 105]).1 =
      RpcOutcome.ok ⟨(create_profile true emptyStore "b" "n" "j").2.nextTaskId⟩ ∧
    (fetch_task true
        (create_task true (create_profile true emptyStore "b" "n" "j").2 ⟨1⟩ "f" [104, 105]).2
        ⟨(create_profile true emptyStore "b" "n" "j").2.nextTaskId⟩).1 =
      RpcOutcome.ok ⟨(create_profile true emptyStore "b" "n" "j").2.nextTaskId,
        (Profile.mk 1 "b" "n" "j").id, "f", [104, 105], multihashEncode [104, 105]⟩ ∧
    (Task.mk (create_profile true emptyStore "b" "n" "j").2.nextTaskId
        (Profile.mk 1 "b" "n" "j").id "f" [104, 105] (multihashEncode [104, 105])).data =
      [104, 105] ∧
    multihashEncode (Task.mk (create_profile true emptyStore "b" "n" "j").2.nextTaskId
        (Profile.mk 1 "b" "n" "j").id "f" [104, 105] (multihashEncode [104, 105])).data =
      (Task.mk (create_profile true emptyStore "b" "n" "j").2.nextTaskId
        (Profile.mk 1 "b" "n" "j").id "f" [104, 105] (multihashEncode [104, 105])).multihash :=
  claim_C6_round_trip (create_profile true emptyStore "b" "n" "j").2 ⟨1⟩ "f" [104, 105]
    ⟨1, "b", "n", "j"⟩
    (Reachable.stepCreateProfile true "b" "n" "j" emptyStore Reachable.init)
    (by decide)

/-- C7: the digest function is deterministic and total over byte
sequences, and the digest is the self-describing multihash encoding of
the SHA-256 hash: the leading code byte 18 (0x12) names SHA2-256, the
length byte 32 (0x20) states the digest length, and the digest body is
exactly 32 bytes. -/
theorem claim_C7_digest (d1 d2 : List Nat) (h : d1 = d2) :
    multihashEncode d1 = multihashEncode d2 ∧
    multihashEncode d1 = 18 :: 32 :: sha256 d1 ∧
    (sha256 d1).length = 32 := by
  subst h
  refine ⟨rfl, rfl, ?_⟩
  simp [sha256, wordBytes]

/-- C7 witness: the digest contract at the empty byte sequence. -/
theorem claim_C7_witness :
    multihashEncode [] = multihashEncode [] ∧
    multihashEncode [] = 18 :: 32 :: sha256 [] ∧
    (sha256 ([] : List Nat)).length = 32 :=
  claim_C7_digest [] [] rfl

/-- C8: with the pool available, `list_profiles` with a base filter
returns exactly the identifiers of the profiles whose base equals the
filter, without a filter returns all profile identifiers, and when no
rows match the result is the empty sequence as a success, not an error;
`list_tasks` has the same semantics filtered by profile id. -/
theorem claim_C8_listing (s : Store) (b : String) (q : ProfileId)
    (i : ProfileId) (ti : TaskId) :
    ((list_profiles true s (some b)).1 =
       RpcOutcome.ok ((s.profiles.filter (fun p => p.base == b)).map (fun p => ⟨p.id⟩)) ∧
     (list_profiles true s none).1 = RpcOutcome.ok (s.profiles.map (fun p => ⟨p.id⟩))) ∧
    ((i ∈ (s.profiles.filter (fun p => p.base == b)).map
        (fun p => (⟨p.id⟩ : ProfileId))) ↔
      ∃ p ∈ s.profiles, p.base = b ∧ p.id = i.val) ∧
    ((∀ p ∈ s.profiles, p.base ≠ b) → (list_profiles true s (some b)).1 = RpcOutcome.ok []) ∧
    ((list_tasks true s (some q)).1 =
       RpcOutcome.ok ((s.tasks.filter (fun t => t.profile_id == q.val)).map (fun t => ⟨t.id⟩)) ∧
     (list_tasks true s none).1 = RpcOutcome.ok (s.tasks.map (fun t => ⟨t.id⟩))) ∧
    ((ti ∈ (s.tasks.filter (fun t => t.profile_id == q.val)).map
        (fun t => (⟨t.id⟩ : TaskId))) ↔
      ∃ t ∈ s.tasks, t.profile_id = q.val ∧ t.id = ti.val) ∧
    ((∀ t ∈ s.tasks, t.profile_id ≠ q.val) → (list_tasks true s (some q)).1 = RpcOutcome.ok []) := by
  obtain ⟨iv⟩ := i
  obtain ⟨tv⟩ := ti
  refine ⟨⟨rfl, rfl⟩, ?_, ?_, ⟨rfl, rfl⟩, ?_, ?_⟩
  · simp only [List.mem_map, List.mem_filter]
    constructor
    · rintro ⟨p, ⟨hp, hb⟩, hid⟩
      refine ⟨p, hp, by simpa using hb, ?_⟩
      simpa using congrArg ProfileId.val hid
    · rintro ⟨p, hp, hb, hid⟩
      exact ⟨p, ⟨hp, by simp [hb]⟩, by simp [hid]⟩
  · intro h
    have hnil : s.profiles.filter (fun p => p.base == b) = [] :=
      List.filter_eq_nil_iff.mpr (by intro p hp; simp [h p hp])
    simp [list_profiles, hnil]
  · simp only [List.mem_map, List.mem_filter]
    constructor
    · rintro ⟨t, ⟨ht, hq⟩, hid⟩
      refine ⟨t, ht, by simpa using hq, ?_⟩
      simpa using congrArg TaskId.val hid
    · rintro ⟨t, ht, hq, hid⟩
      exact ⟨t, ⟨ht, by simp [hq]⟩, by simp [hid]⟩
  · intro h
    have hnil : s.tasks.filter (fun t => t.profile_id == q.val) = [] :=
      List.filter_eq_nil_iff.mpr (by intro t ht; simp [h t ht])
    simp [list_tasks, hnil]

/-- C8 witness: both listings on the fresh store return the empty
sequence as a success. -/
theorem claim_C8_witness :
    (list_profiles true emptyStore (some "z")).1 = RpcOutcome.ok [] ∧
    (list_tasks true emptyStore (some ⟨3⟩)).1 = RpcOutcome.ok [] :=
  ⟨(claim_C8_listing emptyStore "z" ⟨3⟩ ⟨1⟩ ⟨1⟩).2.2.1 (by decide),
   (claim_C8_listing emptyStore "z" ⟨3⟩ ⟨1⟩ ⟨1⟩).2.2.2.2.2 (by decide)⟩

/-- C9: a successful `create_task` records the caller-supplied profile
identifier: the insert uses the id of the profile row fetched by
`fetch_profile`, and that row is selected by `WHERE id = $1`, so its id
coincides with the argument. -/
theorem claim_C9_profile_binding (s : Store) (pid : ProfileId) (fn : String)
    (d : List Nat) (prof : Profile) (hp : lookupProfile s pid.val = some prof) :
    prof.id = pid.val ∧
    (create_task true s pid fn d).1 = RpcOutcome.ok ⟨s.nextTaskId⟩ ∧
    ((create_task true s pid fn d).2).tasks =
      s.tasks ++ [⟨s.nextTaskId, pid.val, fn, d, multihashEncode d⟩] := by
  have hid : prof.id = pid.val := by
    have := List.find?_some hp
    simpa using this
  refine ⟨hid, ?_, ?_⟩ <;> simp [create_task, fetch_profile, hp, hid]

/-- C9 witness: the stored row carries profile_id 1 for the call with
argument 1 on a one-profile store. -/
theorem claim_C9_witness :
    (Profile.mk 1 "b" "n" "j").id = (ProfileId.mk 1).val ∧
    (create_task true ⟨[⟨1, "b", "n", "j"⟩], [], 2, 1⟩ ⟨1⟩ "f" [7]).1 = RpcOutcome.ok ⟨1⟩ ∧
    ((create_task true ⟨[⟨1, "b", "n", "j"⟩], [], 2, 1⟩ ⟨1⟩ "f" [7]).2).tasks =
      [] ++ [⟨1, 1, "f", [7], multihashEncode [7]⟩] :=
  claim_C9_profile_binding ⟨[⟨1, "b", "n", "j"⟩], [], 2, 1⟩ ⟨1⟩ "f" [7]
    ⟨1, "b", "n", "j"⟩ (by decide)

/-- C10: in the tasks table as created at startup the data and multihash
columns are the ones declared without NOT NULL, while id, profile_id and
file_name carry NOT NULL; and along the `create_task` code path every
reachable store state keeps each task's digest present and equal to the
multihash of its stored data. -/
theorem claim_C10_nullable_columns :
    (tasksTableColumns.filter (fun c => !c.isNotNull)).map ColumnDef.cname =
      ["data", "multihash"] ∧
    (tasksTableColumns.filter (fun c => c.isNotNull)).map ColumnDef.cname =
      ["id", "profile_id", "file_name"] ∧
    ∀ s, Reachable s → digestsIntact s = true :=
  ⟨by decide, by decide, fun s h => reachable_digestsIntact s h⟩

/-- C1 counterexample: the NotFound failure of `fetch_profile` on the
fresh store produces no typed RPC fault with an error code: the handler
panics on the failed `.unwrap()`. -/
theorem claim_C1_counterexample :
    (fetch_profile true emptyStore ⟨1⟩).1 = RpcOutcome.panicked ∧
    RpcOutcome.isFault (fetch_profile true emptyStore ⟨1⟩).1 = false := by
  decide

/-- C1 amended: no RPC operation ever returns a typed RPC fault for any
failure of the four kinds; instead each such failure makes the handler
panic through `.unwrap()`: pool exhaustion or store unavailability
(`poolOk = false`), a duplicate name, and a missing profile or task all
end in a panic, and no error code is ever produced. -/
theorem claim_C1_amended (poolOk : Bool) (s : Store) (b n j fn : String)
    (pid : ProfileId) (tid : TaskId) (ob : Option String)
    (op : Option ProfileId) (d : List Nat) :
    RpcOutcome.isFault (create_profile poolOk s b n j).1 = false ∧
    RpcOutcome.isFault (list_profiles poolOk s ob).1 = false ∧
    RpcOutcome.isFault (fetch_profile poolOk s pid).1 = false ∧
    RpcOutcome.isFault (create_task poolOk s pid fn d).1 = false ∧
    RpcOutcome.isFault (list_tasks poolOk s op).1 = false ∧
    RpcOutcome.isFault (fetch_task poolOk s tid).1 = false ∧
    (poolOk = false →
      (create_profile poolOk s b n j).1 = RpcOutcome.panicked ∧
      (list_profiles poolOk s ob).1 = RpcOutcome.panicked ∧
      (fetch_profile poolOk s pid).1 = RpcOutcome.panicked ∧
      (create_task poolOk s pid fn d).1 = RpcOutcome.panicked ∧
      (list_tasks poolOk s op).1 = RpcOutcome.panicked ∧
      (fetch_task poolOk s tid).1 = RpcOutcome.panicked) ∧
    (nameExists s n = true → (create_profile poolOk s b n j).1 = RpcOutcome.panicked) ∧
    (lookupProfile s pid.val = none →
      (fetch_profile poolOk s pid).1 = RpcOutcome.panicked ∧
      (create_task poolOk s pid fn d).1 = RpcOutcome.panicked) ∧
    (lookupTask s tid.val = none → (fetch_task poolOk s tid).1 = RpcOutcome.panicked) := by
  refine ⟨create_profile_no_fault poolOk s b n j, list_profiles_no_fault poolOk s ob,
    fetch_profile_no_fault poolOk s pid, create_task_no_fault poolOk s pid fn d,
    list_tasks_no_fault poolOk s op, fetch_task_no_fault poolOk s tid,
    ?_, ?_, ?_, ?_⟩
  · rintro rfl
    exact ⟨rfl, rfl, rfl, rfl, rfl, rfl⟩
  · intro hn
    cases poolOk
    · rfl
    · simp [create_profile, hn]
  · intro hnone
    cases poolOk
    · exact ⟨rfl, rfl⟩
    · exact ⟨by simp [fetch_profile, hnone], by simp [create_task, fetch_profile, hnone]⟩
  · intro hnone
    cases poolOk
    · rfl
    · simp [fetch_task, hnone]

/-- C1 witness: concrete panics for a missing profile and for an
unavailable pool, and the absence of any fault outcome there. -/
theorem claim_C1_witness :
    RpcOutcome.isFault (fetch_profile true emptyStore ⟨2⟩).1 = false ∧
    (fetch_profile true emptyStore ⟨2⟩).1 = RpcOutcome.panicked ∧
    (create_profile false emptyStore "b" "n" "j").1 = RpcOutcome.panicked := by
  refine ⟨(claim_C1_amended true emptyStore "b" "n" "j" "f" ⟨2⟩ ⟨1⟩ none none []).2.2.1, ?_, ?_⟩
  · exact ((claim_C1_amended true emptyStore "b" "n" "j" "f" ⟨2⟩ ⟨1⟩ none none
      []).2.2.2.2.2.2.2.2.1 (by decide)).1
  · exact ((claim_C1_amended false emptyStore "b" "n" "j" "f" ⟨2⟩ ⟨1⟩ none none
      []).2.2.2.2.2.2.1 rfl).1

/-- C2 counterexample: `create_task` against the missing profile 999999
does not fail with a typed NotFound or Conflict fault: it panics; the
store is unchanged. -/
theorem claim_C2_counterexample :
    RpcOutcome.isFault (create_task true emptyStore ⟨999999⟩ "f" []).1 = false ∧
    (create_task true emptyStore ⟨999999⟩ "f" []).1 = RpcOutcome.panicked ∧
    (create_task true emptyStore ⟨999999⟩ "f" []).2 = emptyStore := by
  decide

/-- C2 amended: for every profile identifier with no matching Profile
row, `create_task` panics on the `.unwrap()` of the failed profile fetch
instead of returning a typed NotFound or Conflict fault, and the store is
unchanged by the call: no Task row is created. -/
theorem claim_C2_amended (poolOk : Bool) (s : Store) (pid : ProfileId)
    (fn : String) (d : List Nat) (hnone : lookupProfile s pid.val = none) :
    create_task poolOk s pid fn d = (RpcOutcome.panicked, s) ∧
    RpcOutcome.isFault (create_task poolOk s pid fn d).1 = false ∧
    ((create_task poolOk s pid fn d).2).tasks = s.tasks := by
  have h1 : create_task poolOk s pid fn d = (RpcOutcome.panicked, s) := by
    cases poolOk <;> simp [create_task, fetch_profile, hnone]
  rw [h1]
  exact ⟨rfl, rfl, rfl⟩

/-- C2 witness: the amended behavior at profile id 999999 on the fresh
store. -/
theorem claim_C2_witness :
    create_task true emptyStore ⟨999999⟩ "g" [1] = (RpcOutcome.panicked, emptyStore) ∧
    RpcOutcome.isFault (create_task true emptyStore ⟨999999⟩ "g" [1]).1 = false ∧
    ((create_task true emptyStore ⟨999999⟩ "g" [1]).2).tasks = emptyStore.tasks :=
  claim_C2_amended true emptyStore ⟨999999⟩ "g" [1] (by decide)

/-- C3 counterexample: creating the same profile name twice makes the
first call succeed, but the second call panics on the UNIQUE violation
instead of failing with a typed Conflict fault. -/
theorem claim_C3_counterexample :
    (create_profile true emptyStore "b1" "n" "j1").1 = RpcOutcome.ok ⟨1⟩ ∧
    (create_profile true (create_profile true emptyStore "b1" "n" "j1").2 "b2" "n" "j2").1 =
      RpcOutcome.panicked ∧
    RpcOutcome.isFault
      (create_profile true (create_profile true emptyStore "b1" "n" "j1").2 "b2" "n" "j2").1 =
      false := by
  decide

/-- C3 amended: with the pool available and the name fresh, the first
`create_profile` succeeds with the next profile id; the second call with
the same name panics on the UNIQUE violation (no typed Conflict fault is
returned), regardless of base and json, and the store — hence the
existing Profile row — is unchanged by the second call. -/
theorem claim_C3_amended (s : Store) (b1 j1 b2 j2 n : String)
    (hfresh : nameExists s n = false) :
    (create_profile true s b1 n j1).1 = RpcOutcome.ok ⟨s.nextProfileId⟩ ∧
    create_profile true (create_profile true s b1 n j1).2 b2 n j2 =
      (RpcOutcome.panicked, (create_profile true s b1 n j1).2) ∧
    RpcOutcome.isFault
      (create_profile true (create_profile true s b1 n j1).2 b2 n j2).1 = false ∧
    ((create_profile true s b1 n j1).2).profiles =
      s.profiles ++ [⟨s.nextProfileId, b1, n, j1⟩] := by
  have h2 : (create_profile true s b1 n j1).2 =
      { s with profiles := s.profiles ++ [⟨s.nextProfileId, b1, n, j1⟩],
               nextProfileId := s.nextProfileId + 1 } := by
    simp [create_profile, hfresh]
  have hex : nameExists
      { s with profiles := s.profiles ++ [⟨s.nextProfileId, b1, n, j1⟩],
               nextProfileId := s.nextProfileId + 1 } n = true := by
    simp [nameExists, List.any_append]
  refine ⟨by simp [create_profile, hfresh], ?_, ?_, by rw [h2]⟩
  · rw [h2]
    simp [create_profile, hex]
  · rw [h2]
    simp [create_profile, hex, RpcOutcome.isFault]

/-- C3 witness: the double creation of name n on the fresh store. -/
theorem claim_C3_witness :
    (create_profile true emptyStore "b1" "nn" "j1").1 = RpcOutcome.ok ⟨1⟩ ∧
    create_profile true (create_profile true emptyStore "b1" "nn" "j1").2 "b2" "nn" "j2" =
      (RpcOutcome.panicked, (create_profile true emptyStore "b1" "nn" "j1").2) ∧
    RpcOutcome.isFault
      (create_profile true (create_profile true emptyStore "b1" "nn" "j1").2 "b2" "nn" "j2").1 =
      false ∧
    ((create_profile true emptyStore "b1" "nn" "j1").2).profiles =
      emptyStore.profiles ++ [⟨1, "b1", "nn", "j1"⟩] :=
  claim_C3_amended emptyStore "b1" "j1" "b2" "j2" "nn" (by decide)

/-- C4 counterexample: fetching a nonexistent profile id and a
nonexistent task id does not produce a distinct not-found RPC fault: both
handlers panic. -/
theorem claim_C4_counterexample :
    (fetch_profile true emptyStore ⟨7⟩).1 = RpcOutcome.panicked ∧
    RpcOutcome.isFault (fetch_profile true emptyStore ⟨7⟩).1 = false ∧
    (fetch_task true emptyStore ⟨7⟩).1 = RpcOutcome.panicked ∧
    RpcOutcome.isFault (fetch_task true emptyStore ⟨7⟩).1 = false := by
  decide

/-- C4 amended: with the pool available, `fetch_profile` on a missing id
panics (it never returns a default or zero value, but also no distinct
not-found fault), and on an existing id returns the full stored record;
likewise `fetch_task`. -/
theorem claim_C4_amended (s : Store) (pid : ProfileId) (tid : TaskId)
    (prof : Profile) (t : Task) :
    (lookupProfile s pid.val = none →
      fetch_profile true s pid = (RpcOutcome.panicked, s)) ∧
    (lookupProfile s pid.val = some prof →
      fetch_profile true s pid = (RpcOutcome.ok prof, s)) ∧
    (lookupTask s tid.val = none →
      fetch_task true s tid = (RpcOutcome.panicked, s)) ∧
    (lookupTask s tid.val = some t →
      fetch_task true s tid = (RpcOutcome.ok t, s)) := by
  refine ⟨?_, ?_, ?_, ?_⟩ <;> intro h <;> simp [fetch_profile, fetch_task, h]

/-- C4 witness: a hit returns the full stored record, a miss panics, on a
concrete one-profile store. -/
theorem claim_C4_witness :
    fetch_profile true ⟨[⟨1, "b", "n", "j"⟩], [], 2, 1⟩ ⟨1⟩ =
      (RpcOutcome.ok ⟨1, "b", "n", "j"⟩, ⟨[⟨1, "b", "n", "j"⟩], [], 2, 1⟩) ∧
    fetch_profile true ⟨[⟨1, "b", "n", "j"⟩], [], 2, 1⟩ ⟨9⟩ =
      (RpcOutcome.panicked, ⟨[⟨1, "b", "n", "j"⟩], [], 2, 1⟩) :=
  ⟨(claim_C4_amended ⟨[⟨1, "b", "n", "j"⟩], [], 2, 1⟩ ⟨1⟩ ⟨1⟩ ⟨1, "b", "n", "j"⟩
      ⟨1, 1, "f", [], []⟩).2.1 (by decide),
   (claim_C4_amended ⟨[⟨1, "b", "n", "j"⟩], [], 2, 1⟩ ⟨9⟩ ⟨1⟩ ⟨1, "b", "n", "j"⟩
      ⟨1, 1, "f", [], []⟩).1 (by decide)⟩

/-- C5 counterexample: the tasks table as created at startup declares
profile_id as `BIGSERIAL NOT NULL` with no `REFERENCES profiles(id)`
clause — no column of the tasks table carries a foreign-key clause. -/
theorem claim_C5_counterexample :
    (tasksTableColumns.find? (fun c => c.cname == "profile_id")).map
      ColumnDef.referencesTable = some none ∧
    tasksTableColumns.all (fun c => c.referencesTable == none) = true := by
  decide

/-- C5 amended: the profiles table does enforce `name UNIQUE`, but the
tasks table declares no foreign key on profile_id; the invariant that in
every reachable store state each task's profile_id references an existing
profile still holds, enforced by the `create_task` code path alone, which
resolves the profile before inserting. -/
theorem claim_C5_amended :
    (profilesTableColumns.any (fun c => c.cname == "name" && c.isUnique)) = true ∧
    (tasksTableColumns.any (fun c => c.cname == "profile_id" && c.isNotNull)) = true ∧
    tasksTableColumns.all (fun c => c.referencesTable == none) = true ∧
    ∀ s, Reachable s → refIntact s = true :=
  ⟨by decide, by decide, by decide, fun s h => reachable_refIntact s h⟩

/-- C5 witness: referential integrity at a concrete reachable two-step
store. -/
theorem claim_C5_witness :
    refIntact
      (create_task true (create_profile true emptyStore "ci" "nightly" "x").2
        ⟨1⟩ "out.log" [1, 2]).2 = true :=
  claim_C5_amended.2.2.2 _
    (Reachable.stepCreateTask true ⟨1⟩ "out.log" [1, 2] _
      (Reachable.stepCreateProfile true "ci" "nightly" "x" emptyStore Reachable.init))

/-- C10 witness: digest integrity at a concrete reachable two-step store. -/
theorem claim_C10_witness :
    digestsIntact
      (create_task true (create_profile true emptyStore "b" "n" "j").2 ⟨1⟩ "f" [7]).2 = true :=
  claim_C10_nullable_columns.2.2 _
    (Reachable.stepCreateTask true ⟨1⟩ "f" [7] _
      (Reachable.stepCreateProfile true "b" "n" "j" emptyStore Reachable.init))

end Violetear
